import Mathlib

/-!
Verification of the KuKirin G4 BLE mode reader (ble_mode_reader.py).

The development shallowly embeds the pure core of the script:
the notification frame decoder and the last-mode display state
(function on_notify, lines 132-157), the device scanner collection
and ranking logic (scan_devices, lines 85-120), and the session
teardown control flow (live_hud / connect_and_run, lines 159-188).
Bytes are modelled as natural numbers, byte sequences as lists,
RSSI values as optional integers, and the Python exception control
flow as an explicit exception-plus-trace monad.
-/

namespace KukirinG4

/-- Operating mode of the scooter, decoded from a notification frame. -/
inductive Mode where
  | ECO
  | SPORT
  | RACE
deriving DecidableEq, Repr

/-- Protocol constant: offset of the gate byte (line 55). -/
def GATE_OFFSET : Nat := 6

/-- Protocol constant: required gate byte value (line 56). -/
def GATE_VALUE : Nat := 0x00

/-- Protocol constant: offset of the mode byte (line 57). -/
def MODE_OFFSET : Nat := 5

/-- Mapping from mode byte to mode, MODE_MAP = {0x01: ECO, 0x02: SPORT, 0x03: RACE}
(line 58); any byte absent from the dictionary is modelled as none. -/
def MODE_MAP (b : Nat) : Option Mode :=
  if b = 0x01 then some Mode.ECO
  else if b = 0x02 then some Mode.SPORT
  else if b = 0x03 then some Mode.RACE
  else none

/-- Frame decoder: the guard clauses of on_notify (lines 134-139) followed by
the mode byte dispatch (the branch structure of lines 141-156 agrees exactly
with a MODE_MAP lookup). Returns none on an empty frame, on a frame of length
at most max(GATE_OFFSET, MODE_OFFSET) = 6, on a failed gate check, and on a
mode byte outside the map. -/
def decode (data : List Nat) : Option Mode :=
  if data = [] then none
  else if data.length ≤ max GATE_OFFSET MODE_OFFSET then none
  else if data.getD GATE_OFFSET 0 ≠ GATE_VALUE then none
  else MODE_MAP (data.getD MODE_OFFSET 0)

/-- One invocation of the notification callback on_notify (lines 132-157),
acting on the mutable holder last_mode; the local binding b = data[MODE_OFFSET]
of line 141 is inlined. The result is the new value of last_mode together with
the list of render actions performed by this call (the writes of ECO_LINE /
SPORT_LINE / RACE_LINE, recorded as the mode they display; each call performs
zero or one such write). -/
def on_notify (data : List Nat) (last_mode : Option Mode) : Option Mode × List Mode :=
  if data = [] then (last_mode, [])
  else if data.length ≤ max GATE_OFFSET MODE_OFFSET then (last_mode, [])
  else if data.getD GATE_OFFSET 0 ≠ GATE_VALUE then (last_mode, [])
  else if data.getD MODE_OFFSET 0 = 0x01 then
    (if last_mode ≠ some Mode.ECO then (some Mode.ECO, [Mode.ECO]) else (last_mode, []))
  else if data.getD MODE_OFFSET 0 = 0x02 then
    (if last_mode ≠ some Mode.SPORT then (some Mode.SPORT, [Mode.SPORT]) else (last_mode, []))
  else if data.getD MODE_OFFSET 0 = 0x03 then
    (if last_mode ≠ some Mode.RACE then (some Mode.RACE, [Mode.RACE]) else (last_mode, []))
  else (last_mode, [])

/-- The per-mode branch body shared by lines 142-156: render the mode and
record it when it differs from the stored last_mode, otherwise do nothing.
This is the Mode Display State observe operation of the specification. -/
def observe (last_mode : Option Mode) (m : Mode) : Option Mode × List Mode :=
  if last_mode ≠ some m then (some m, [m]) else (last_mode, [])

/-- Fold of observe over a sequence of decoded modes, collecting the render
actions in order. -/
def observeAll (st : Option Mode) : List Mode → Option Mode × List Mode
  | [] => (st, [])
  | m :: ms =>
    let p := observe st m
    let q := observeAll p.1 ms
    (q.1, p.2 ++ q.2)

/-- Fold of on_notify over a sequence of notification frames, collecting the
render actions in order. -/
def processFrames (st : Option Mode) : List (List Nat) → Option Mode × List Mode
  | [] => (st, [])
  | f :: fs =>
    let p := on_notify f st
    let q := processFrames p.1 fs
    (q.1, p.2 ++ q.2)

/-- One session of live_hud at the level of the notification pipeline:
the holder last_mode is created fresh with value None (line 124), so every
session starts from the state none. -/
def live_hud_run (frames : List (List Nat)) : Option Mode × List Mode :=
  processFrames none frames

/-- Two consecutive sessions, as run by the interactive loop (main calls
connect_and_run once per selection, line 212); each call of live_hud builds
its own last_mode holder, so neither session sees the state of the other. -/
def two_sessions (f1 f2 : List (List Nat)) :
    (Option Mode × List Mode) × (Option Mode × List Mode) :=
  (live_hud_run f1, live_hud_run f2)

/-- Glue fact: on_notify is exactly decode followed by observe. -/
theorem on_notify_eq_decode_observe (data : List Nat) (st : Option Mode) :
    on_notify data st =
      match decode data with
      | none => (st, [])
      | some m => observe st m := by
  unfold on_notify decode MODE_MAP
  by_cases h0 : data = []
  · rw [if_pos h0, if_pos h0]
  rw [if_neg h0, if_neg h0]
  by_cases h1 : data.length ≤ max GATE_OFFSET MODE_OFFSET
  · rw [if_pos h1, if_pos h1]
  rw [if_neg h1, if_neg h1]
  by_cases h2 : data.getD GATE_OFFSET 0 ≠ GATE_VALUE
  · rw [if_pos h2, if_pos h2]
  rw [if_neg h2, if_neg h2]
  by_cases b1 : data.getD MODE_OFFSET 0 = 0x01
  · rw [if_pos b1, if_pos b1]; rfl
  rw [if_neg b1, if_neg b1]
  by_cases b2 : data.getD MODE_OFFSET 0 = 0x02
  · rw [if_pos b2, if_pos b2]; rfl
  rw [if_neg b2, if_neg b2]
  by_cases b3 : data.getD MODE_OFFSET 0 = 0x03
  · rw [if_pos b3, if_pos b3]; rfl
  rw [if_neg b3, if_neg b3]

/-- Helper: on a frame of length at least 7 that passes the gate check, the
decoder is the MODE_MAP lookup of the mode byte. -/
theorem decode_long (data : List Nat) (h7 : 7 ≤ data.length)
    (hg : data.getD GATE_OFFSET 0 = GATE_VALUE) :
    decode data = MODE_MAP (data.getD MODE_OFFSET 0) := by
  have h0 : ¬ data = [] := by
    intro h
    rw [h] at h7
    simp at h7
  have hmax : max GATE_OFFSET MODE_OFFSET = 6 := by decide
  have h1 : ¬ data.length ≤ max GATE_OFFSET MODE_OFFSET := by
    rw [hmax]
    omega
  unfold decode
  rw [if_neg h0, if_neg h1, if_neg (fun h => h hg)]

/-- Helper: a frame the decoder rejects leaves the state untouched and renders
nothing. -/
theorem on_notify_none (data : List Nat) (st : Option Mode)
    (h : decode data = none) : on_notify data st = (st, []) := by
  rw [on_notify_eq_decode_observe, h]

/-- Helper: a frame that decodes to m behaves as observe st m. -/
theorem on_notify_some (data : List Nat) (st : Option Mode) (m : Mode)
    (h : decode data = some m) : on_notify data st = observe st m := by
  rw [on_notify_eq_decode_observe, h]

/-- Helper: frames that decode to none can be dropped from the front of a
session without changing anything. -/
theorem processFrames_skip (st : Option Mode) (pre fs : List (List Nat))
    (h : ∀ g ∈ pre, decode g = none) :
    processFrames st (pre ++ fs) = processFrames st fs := by
  induction pre with
  | nil => rfl
  | cons g gs ih =>
    have hg : decode g = none := h g (List.mem_cons_self g gs)
    have hgs : ∀ x ∈ gs, decode x = none := fun x hx => h x (List.mem_cons_of_mem g hx)
    simp only [List.cons_append, processFrames, on_notify_none g st hg,
      List.nil_append, Prod.mk.eta]
    exact ih hgs

/-- Helper: observing the mode already stored does nothing. -/
theorem observe_same (m : Mode) : observe (some m) m = (some m, []) := by
  unfold observe
  rw [if_neg (fun h => h rfl)]

/-- Helper: once the state stores m, any further run of identical observations
of m renders nothing and keeps the state. -/
theorem observeAll_replicate_same (m : Mode) (k : Nat) :
    observeAll (some m) (List.replicate k m) = (some m, []) := by
  induction k with
  | zero => rfl
  | succ n ih =>
    simp only [List.replicate_succ, observeAll, observe_same, ih, List.nil_append]

/-- C1: for every frame of at least 7 bytes whose byte at offset 6 equals 0x00,
the decoder yields ECO when the byte at offset 5 is 0x01, SPORT when it is
0x02, RACE when it is 0x03, and no mode for every other value of that byte;
in particular the 7-byte frame with bytes 0x02 at offset 5 and 0x00 at offset 6
decodes to SPORT. -/
theorem C1_decode_mode_mapping :
    (∀ (data : List Nat), 7 ≤ data.length → data.getD GATE_OFFSET 0 = GATE_VALUE →
      ((data.getD MODE_OFFSET 0 = 0x01 → decode data = some Mode.ECO) ∧
       (data.getD MODE_OFFSET 0 = 0x02 → decode data = some Mode.SPORT) ∧
       (data.getD MODE_OFFSET 0 = 0x03 → decode data = some Mode.RACE) ∧
       (data.getD MODE_OFFSET 0 ≠ 0x01 → data.getD MODE_OFFSET 0 ≠ 0x02 →
        data.getD MODE_OFFSET 0 ≠ 0x03 → decode data = none))) ∧
    decode [0, 0, 0, 0, 0, 0x02, 0x00] = some Mode.SPORT := by
  refine ⟨fun data h7 hg => ?_, by decide⟩
  rw [decode_long data h7 hg]
  refine ⟨fun hb => ?_, fun hb => ?_, fun hb => ?_, fun h1 h2 h3 => ?_⟩
  · rw [hb]; rfl
  · rw [hb]; rfl
  · rw [hb]; rfl
  · unfold MODE_MAP
    rw [if_neg h1, if_neg h2, if_neg h3]

/-- Witness for C1 at the concrete frame [9, 9, 9, 9, 9, 1, 0]. -/
theorem C1_decode_mode_mapping_witness :
    decode [9, 9, 9, 9, 9, 1, 0] = some Mode.ECO :=
  (C1_decode_mode_mapping.1 [9, 9, 9, 9, 9, 1, 0] (by decide) (by decide)).1 (by decide)

/-- C2: every byte sequence shorter than 7 bytes (the empty one included)
decodes to no mode, and the notification callback on it performs no render
action and leaves the display state unchanged. -/
theorem C2_short_frame_no_mode (data : List Nat) (h : data.length < 7) :
    decode data = none ∧ ∀ st : Option Mode, on_notify data st = (st, []) := by
  by_cases h0 : data = []
  · subst h0
    exact ⟨rfl, fun st => rfl⟩
  · have hmax : max GATE_OFFSET MODE_OFFSET = 6 := by decide
    have h1 : data.length ≤ max GATE_OFFSET MODE_OFFSET := by
      rw [hmax]
      omega
    constructor
    · unfold decode
      rw [if_neg h0, if_pos h1]
    · intro st
      unfold on_notify
      rw [if_neg h0, if_pos h1]

/-- Witness for C2 at the concrete 3-byte frame [1, 2, 3] and at the empty
frame. -/
theorem C2_short_frame_no_mode_witness :
    (decode [1, 2, 3] = none ∧ on_notify [1, 2, 3] (some Mode.ECO) = (some Mode.ECO, [])) ∧
    decode [] = none :=
  ⟨⟨(C2_short_frame_no_mode [1, 2, 3] (by decide)).1,
    (C2_short_frame_no_mode [1, 2, 3] (by decide)).2 (some Mode.ECO)⟩,
   (C2_short_frame_no_mode [] (by decide)).1⟩

/-- C3: every frame of at least 7 bytes whose byte at offset 6 is not 0x00
decodes to no mode, whatever the byte at offset 5 holds. -/
theorem C3_gate_check_rejects (data : List Nat) (h7 : 7 ≤ data.length)
    (hg : data.getD GATE_OFFSET 0 ≠ GATE_VALUE) :
    decode data = none := by
  have h0 : ¬ data = [] := by
    intro h
    rw [h] at h7
    simp at h7
  have hmax : max GATE_OFFSET MODE_OFFSET = 6 := by decide
  have h1 : ¬ data.length ≤ max GATE_OFFSET MODE_OFFSET := by
    rw [hmax]
    omega
  unfold decode
  rw [if_neg h0, if_neg h1, if_pos hg]

/-- Witness for C3 at a frame with a valid mode byte but gate byte 0x5A. -/
theorem C3_gate_check_rejects_witness :
    decode [0, 0, 0, 0, 0, 0x02, 0x5A] = none :=
  C3_gate_check_rejects [0, 0, 0, 0, 0, 0x02, 0x5A] (by decide) (by decide)

/-- C4: observing the same mode N ≥ 1 consecutive times from any starting
state renders exactly once when the mode differs from the stored one and
never otherwise, and leaves the stored mode equal to the observed mode. -/
theorem C4_observe_idempotent (st : Option Mode) (m : Mode) (n : Nat) (h : 1 ≤ n) :
    observeAll st (List.replicate n m) =
      (some m, if st = some m then [] else [m]) := by
  obtain ⟨k, rfl⟩ : ∃ k, n = k + 1 := ⟨n - 1, by omega⟩
  rw [List.replicate_succ]
  by_cases hst : st = some m
  · subst hst
    simp [observeAll, observe_same, observeAll_replicate_same]
  · simp [observeAll, observe, hst, observeAll_replicate_same]

/-- Witness for C4: three identical SPORT observations from the fresh state
render SPORT exactly once. -/
theorem C4_observe_idempotent_witness :
    observeAll none (List.replicate 3 Mode.SPORT) =
      (some Mode.SPORT, if (none : Option Mode) = some Mode.SPORT then [] else [Mode.SPORT]) :=
  C4_observe_idempotent none Mode.SPORT 3 (by decide)

/-- C5: from the fresh display state, the observed mode sequence
[ECO, ECO, SPORT, SPORT, SPORT, RACE, ECO] yields exactly the four render
actions ECO, SPORT, RACE, ECO, in that order. -/
theorem C5_dedup_sequence :
    observeAll none
      [Mode.ECO, Mode.ECO, Mode.SPORT, Mode.SPORT, Mode.SPORT, Mode.RACE, Mode.ECO] =
      (some Mode.ECO, [Mode.ECO, Mode.SPORT, Mode.RACE, Mode.ECO]) := by
  decide

/-- C8: the display state is created per session, so the outcome of the second
of two consecutive sessions never depends on the first, and the first
qualifying mode of the new session is rendered first even when it equals the
last mode rendered in the previous session. -/
theorem C8_fresh_state_per_session (f1 pre rest : List (List Nat)) (f : List Nat)
    (m : Mode) (hpre : ∀ g ∈ pre, decode g = none) (hf : decode f = some m) :
    (two_sessions f1 (pre ++ f :: rest)).2 = live_hud_run (pre ++ f :: rest) ∧
    ((two_sessions f1 (pre ++ f :: rest)).2).2.head? = some m := by
  refine ⟨rfl, ?_⟩
  show (live_hud_run (pre ++ f :: rest)).2.head? = some m
  unfold live_hud_run
  rw [processFrames_skip none pre (f :: rest) hpre]
  have hnm : (none : Option Mode) ≠ some m := fun h => Option.noConfusion h
  simp only [processFrames, on_notify_some f none m hf, observe, hnm, ne_eq,
    not_false_iff, ite_true, List.singleton_append, List.head?_cons, if_pos]

/-- Witness for C8: after a first session that rendered ECO, a second session
starting with a noise frame and then an ECO frame still renders ECO first. -/
theorem C8_fresh_state_per_session_witness :
    (two_sessions [[0, 0, 0, 0, 0, 1, 0]] ([[5]] ++ [0, 0, 0, 0, 0, 1, 0] :: [])).2 =
      live_hud_run ([[5]] ++ [0, 0, 0, 0, 0, 1, 0] :: []) ∧
    ((two_sessions [[0, 0, 0, 0, 0, 1, 0]] ([[5]] ++ [0, 0, 0, 0, 0, 1, 0] :: [])).2).2.head? =
      some Mode.ECO :=
  C8_fresh_state_per_session [[0, 0, 0, 0, 0, 1, 0]] [[5]] [] [0, 0, 0, 0, 0, 1, 0]
    Mode.ECO (by intro g hg; simp only [List.mem_singleton] at hg; subst hg; decide)
    (by decide)

/-- C9: a frame on which the decoder yields no mode leaves the display state
exactly unchanged and renders nothing. -/
theorem C9_rejected_frame_no_mutation (data : List Nat) (st : Option Mode)
    (h : decode data = none) : on_notify data st = (st, []) := by
  rw [on_notify_eq_decode_observe, h]

/-- Witness for C9 at the rejected frame [1, 2, 3] and state SPORT. -/
theorem C9_rejected_frame_no_mutation_witness :
    on_notify [1, 2, 3] (some Mode.SPORT) = (some Mode.SPORT, []) :=
  C9_rejected_frame_no_mutation [1, 2, 3] (some Mode.SPORT) (by decide)

/-- C10: the display state starts each session as none, and after any
invocation of the callback it is none or one of exactly ECO, SPORT, RACE. -/
theorem C10_state_range :
    (live_hud_run []).1 = none ∧
    ∀ (data : List Nat) (st : Option Mode),
      (on_notify data st).1 = none ∨ (on_notify data st).1 = some Mode.ECO ∨
      (on_notify data st).1 = some Mode.SPORT ∨ (on_notify data st).1 = some Mode.RACE := by
  refine ⟨rfl, fun data st => ?_⟩
  cases hh : (on_notify data st).1 with
  | none => exact Or.inl rfl
  | some m =>
    cases m with
    | ECO => exact Or.inr (Or.inl rfl)
    | SPORT => exact Or.inr (Or.inr (Or.inl rfl))
    | RACE => exact Or.inr (Or.inr (Or.inr rfl))

/-- Discovered BLE device as used by scan_devices: an address, an optional
advertised name and an optional RSSI (getattr(dev, "rssi", None) may be absent
or not an int, modelled as none). -/
structure BLEDevice where
  address : String
  name : Option String
  rssi : Option Int
deriving DecidableEq, Repr

/-- The statement found[d.address] = d of line 92 on the insertion-ordered
dictionary found: overwriting keeps the position of the existing key, a new
key is appended at the end (Python dict semantics). -/
def dictInsert (found : List BLEDevice) (d : BLEDevice) : List BLEDevice :=
  if ∃ x ∈ found, x.address = d.address then
    found.map (fun x => if x.address = d.address then d else x)
  else found ++ [d]

/-- The scan window of lines 88-99: every advertisement event runs on_detect,
which stores the device in found keyed by address; the result is
list(found.values()). -/
def collect (events : List BLEDevice) : List BLEDevice :=
  events.foldl dictInsert []

/-- The sort key rssi_of of lines 105-107: the RSSI when present, otherwise
the sentinel -999. -/
def rssi_of (d : BLEDevice) : Int :=
  match d.rssi with
  | some v => v
  | none => -999

/-- Ordering used by devices.sort(key=rssi_of, reverse=True) on line 109:
a comes no later than b when the key of a is at least the key of b. -/
def devGE (a b : BLEDevice) : Prop := rssi_of b ≤ rssi_of a

instance : DecidableRel devGE :=
  fun a b => inferInstanceAs (Decidable (rssi_of b ≤ rssi_of a))

instance : IsTotal BLEDevice devGE :=
  ⟨fun a b => le_total (rssi_of b) (rssi_of a)⟩

instance : IsTrans BLEDevice devGE :=
  ⟨fun _ _ _ hab hbc => le_trans hbc hab⟩

/-- The scanner of lines 85-120 at the level of one scan window: collect the
advertisement events into the address-keyed dictionary, then sort the values
by RSSI descending. Python list.sort is a stable sort; a stable sort by a
fixed key has a unique output and insertion sort with the non-strict
relation devGE is stable, so the two agree on every input. -/
def scan_devices (events : List BLEDevice) : List BLEDevice :=
  List.insertionSort devGE (collect events)

/-- Helper: dictInsert preserves distinctness of the stored addresses. -/
theorem dictInsert_addr_nodup (l : List BLEDevice) (d : BLEDevice)
    (h : (l.map BLEDevice.address).Nodup) :
    ((dictInsert l d).map BLEDevice.address).Nodup := by
  unfold dictInsert
  split
  case isTrue hex =>
    have hmap : (l.map (fun x => if x.address = d.address then d else x)).map
        BLEDevice.address = l.map BLEDevice.address := by
      rw [List.map_map]
      apply List.map_congr_left
      intro x _
      by_cases hxa : x.address = d.address
      · simp [hxa]
      · simp [hxa]
    rw [hmap]
    exact h
  case isFalse hex =>
    push_neg at hex
    rw [List.map_append]
    simp only [List.map_cons, List.map_nil]
    rw [List.nodup_append]
    refine ⟨h, List.nodup_singleton _, ?_⟩
    intro a ha hb
    simp only [List.mem_singleton] at hb
    subst hb
    obtain ⟨x, hx, hxa⟩ := List.mem_map.mp ha
    exact hex x hx hxa

/-- Helper: the collected devices of one scan window have pairwise distinct
addresses. -/
theorem collect_addr_nodup (events : List BLEDevice) :
    ((collect events).map BLEDevice.address).Nodup := by
  suffices h : ∀ acc : List BLEDevice, (acc.map BLEDevice.address).Nodup →
      ((events.foldl dictInsert acc).map BLEDevice.address).Nodup from
    h [] (by simp)
  induction events with
  | nil => exact fun acc hacc => hacc
  | cons e es ih =>
    intro acc hacc
    exact ih _ (dictInsert_addr_nodup acc e hacc)

/-- Helper: after storing d, every stored device carrying the address of d is
d itself. -/
theorem dictInsert_last_wins (l : List BLEDevice) (d x : BLEDevice)
    (hx : x ∈ dictInsert l d) (ha : x.address = d.address) : x = d := by
  unfold dictInsert at hx
  split at hx
  case isTrue hex =>
    obtain ⟨y, _, hy⟩ := List.mem_map.mp hx
    by_cases hya : y.address = d.address
    · rw [if_pos hya] at hy
      exact hy.symm
    · rw [if_neg hya] at hy
      rw [← hy] at ha
      exact absurd ha hya
  case isFalse hex =>
    push_neg at hex
    rcases List.mem_append.mp hx with hmem | hmem
    · exact absurd ha (hex x hmem)
    · simpa using hmem

/-- Helper: collecting one more event is dictInsert on the previous window. -/
theorem collect_snoc (events : List BLEDevice) (d : BLEDevice) :
    collect (events ++ [d]) = dictInsert (collect events) d := by
  unfold collect
  rw [List.foldl_append]
  rfl

/-- C6 counterexample: with a device of known signal strength -1000 and a
device of unknown signal strength in the window, the unknown-strength device
is ranked first and the known-strength one last, against the words that
unknown-strength devices sort as the weakest possible value and so appear
last and never first. -/
theorem C6_scan_ranking_counterexample :
    (⟨"CC", none, none⟩ : BLEDevice).rssi = none ∧
    (⟨"AA", none, some (-1000)⟩ : BLEDevice).rssi = some (-1000) ∧
    scan_devices [⟨"AA", none, some (-1000)⟩, ⟨"CC", none, none⟩] =
      [⟨"CC", none, none⟩, ⟨"AA", none, some (-1000)⟩] := by
  refine ⟨rfl, rfl, ?_⟩
  rfl

/-- C6 (amended): one scan window yields at most one device per address, the
most recent advertisement for an address wins, the output is sorted descending
by the key rssi_of in which an unknown signal strength counts as the sentinel
-999 (so unknown-strength devices come after every device with known strength
above -999, though a device with strength -999 or below can tie with or follow
them), and the events A (rssi -40), B (rssi -70), C (rssi unknown) produce the
output order [A, B, C]. -/
theorem C6_scan_ranking_amended :
    (∀ events : List BLEDevice,
      ((scan_devices events).map BLEDevice.address).Nodup ∧
      List.Sorted devGE (scan_devices events)) ∧
    (∀ (events : List BLEDevice) (d x : BLEDevice),
      x ∈ scan_devices (events ++ [d]) → x.address = d.address → x = d) ∧
    (∀ d : BLEDevice, d.rssi = none → rssi_of d = -999) ∧
    (scan_devices
        [⟨"A", none, some (-40)⟩, ⟨"B", none, some (-70)⟩, ⟨"C", none, none⟩]).map
      BLEDevice.address = ["A", "B", "C"] := by
  refine ⟨fun events => ⟨?_, ?_⟩, fun events d x hx ha => ?_, fun d hd => ?_, by rfl⟩
  · have hperm : List.Perm (scan_devices events) (collect events) :=
      List.perm_insertionSort devGE (collect events)
    exact ((hperm.map BLEDevice.address).nodup_iff).mpr (collect_addr_nodup events)
  · exact List.sorted_insertionSort devGE (collect events)
  · have hperm : List.Perm (scan_devices (events ++ [d])) (collect (events ++ [d])) :=
      List.perm_insertionSort devGE _
    have hmem : x ∈ collect (events ++ [d]) := hperm.mem_iff.mp hx
    rw [collect_snoc] at hmem
    exact dictInsert_last_wins (collect events) d x hmem ha
  · unfold rssi_of
    rw [hd]

/-- Witness for the amended C6: at a window whose two events share one
address, the stored entry with that address is the later event, and a device
without RSSI has sort key -999. -/
theorem C6_scan_ranking_amended_witness :
    (⟨"AA", some "g4", some (-50)⟩ : BLEDevice) = ⟨"AA", some "g4", some (-50)⟩ ∧
    rssi_of ⟨"ZZ", none, none⟩ = -999 :=
  ⟨C6_scan_ranking_amended.2.1 [⟨"AA", none, some (-40)⟩] ⟨"AA", some "g4", some (-50)⟩
      ⟨"AA", some "g4", some (-50)⟩ (by decide) rfl,
   C6_scan_ranking_amended.2.2.1 ⟨"ZZ", none, none⟩ rfl⟩

/-- Python exception classes relevant to the session teardown of lines
159-188: KeyboardInterrupt and asyncio CancelledError derive from
BaseException only, the rest derive from Exception. -/
inductive Exc where
  | keyboardInterrupt
  | cancelledError
  | transportError
  | timeoutError
  | unsubError
deriving DecidableEq, Repr

instance : DecidableEq (Except Exc Unit) := fun a b =>
  match a, b with
  | Except.ok u, Except.ok v =>
    Decidable.isTrue (by cases u; cases v; rfl)
  | Except.error e1, Except.error e2 =>
    if h : e1 = e2 then Decidable.isTrue (by rw [h])
    else Decidable.isFalse (fun hh => h (Except.error.inj hh))
  | Except.ok _, Except.error _ => Decidable.isFalse (fun hh => Except.noConfusion hh)
  | Except.error _, Except.ok _ => Decidable.isFalse (fun hh => Except.noConfusion hh)

/-- Whether an except-Exception clause catches the class. -/
def isException : Exc → Bool
  | Exc.keyboardInterrupt => false
  | Exc.cancelledError => false
  | _ => true

/-- Observable steps of one session, in the order they are performed. -/
inductive Ev where
  | subscribed
  | unsubCalled
  | newlineWritten
  | released
deriving DecidableEq, Repr

/-- Session computations: a step maps the event trace so far to a normal or
exceptional result together with the extended trace. -/
def SessM (α : Type) : Type := List Ev → Except Exc α × List Ev

/-- Step that does nothing (a Python pass). -/
def pureS : SessM Unit := fun tr => (Except.ok (), tr)

/-- Step that records one observable event. -/
def emit (e : Ev) : SessM Unit := fun tr => (Except.ok (), tr ++ [e])

/-- Step that raises the exception e. -/
def raiseS (e : Exc) : SessM Unit := fun tr => (Except.error e, tr)

/-- Sequencing: run k only when m finished normally. -/
def seqS (m k : SessM Unit) : SessM Unit := fun tr =>
  match m tr with
  | (Except.ok _, tr1) => k tr1
  | (Except.error e, tr1) => (Except.error e, tr1)

/-- A try/except block catching exactly the classes selected by catchable. -/
def tryCatch (m : SessM Unit) (catchable : Exc → Bool) (handler : SessM Unit) :
    SessM Unit := fun tr =>
  match m tr with
  | (Except.ok a, tr1) => (Except.ok a, tr1)
  | (Except.error e, tr1) =>
    if catchable e then handler tr1 else (Except.error e, tr1)

/-- A try/finally block: the finaliser runs on the normal and on the
exceptional exit of the body; an exception of the finaliser replaces the
exception of the body, as in Python. -/
def tryFinallyS (m fin : SessM Unit) : SessM Unit := fun tr =>
  match m tr with
  | (Except.ok a, tr1) =>
    match fin tr1 with
    | (Except.ok _, tr2) => (Except.ok a, tr2)
    | (Except.error e, tr2) => (Except.error e, tr2)
  | (Except.error e, tr1) =>
    match fin tr1 with
    | (Except.ok _, tr2) => (Except.error e, tr2)
    | (Except.error e2, tr2) => (Except.error e2, tr2)

/-- Subscription step client.start_notify of line 159. -/
def start_notify : SessM Unit := emit Ev.subscribed

/-- Unsubscribe step client.stop_notify of line 168; the parameter says
whether the call raises after being issued. -/
def stop_notify (unsubFails : Bool) : SessM Unit :=
  seqS (emit Ev.unsubCalled) (if unsubFails then raiseS Exc.unsubError else pureS)

/-- The live_hud session body of lines 159-171: subscribe, then a
sleep-forever loop that only an exception leaves (the parameter bodyExc names
it), wrapped in try/except KeyboardInterrupt with a finally block that tries
stop_notify, swallows every Exception it raises, and writes the closing
newline. -/
def live_hud_model (bodyExc : Exc) (unsubFails : Bool) : SessM Unit :=
  seqS start_notify
    (tryFinallyS
      (tryCatch (raiseS bodyExc) (fun e => decide (e = Exc.keyboardInterrupt)) pureS)
      (seqS (tryCatch (stop_notify unsubFails) isException pureS)
        (emit Ev.newlineWritten)))

/-- The connect_and_run session of lines 174-188: the async-with block either
fails to connect (raising before the connection exists, releasing nothing) or
acquires the connection and releases it on every exit of its body; inside, a
failed connection-status check returns early, otherwise live_hud runs. -/
def connect_and_run_model (connectOk statusOk : Bool) (bodyExc : Exc)
    (unsubFails : Bool) : SessM Unit :=
  if connectOk = false then raiseS Exc.timeoutError
  else
    tryFinallyS
      (if statusOk = false then pureS else live_hud_model bodyExc unsubFails)
      (emit Ev.released)

/-- C7: in an established session, whatever exception ends the listening wait
(cancellation, transport error or timeout) and whether or not the unsubscribe
call fails, the connection-release step runs exactly once and last (the
session reaches Closed), the unsubscribe is attempted exactly once, its
failure never escapes, and a plain cancellation ends the session normally. -/
theorem C7_teardown_reaches_closed (bodyExc : Exc) (unsubFails : Bool)
    (hb : bodyExc ≠ Exc.unsubError) :
    ((connect_and_run_model true true bodyExc unsubFails []).2.count Ev.released = 1) ∧
    ((connect_and_run_model true true bodyExc unsubFails []).2.getLast? =
      some Ev.released) ∧
    ((connect_and_run_model true true bodyExc unsubFails []).2.count Ev.unsubCalled = 1) ∧
    ((connect_and_run_model true true bodyExc unsubFails []).1 ≠
      Except.error Exc.unsubError) ∧
    (bodyExc = Exc.keyboardInterrupt →
      (connect_and_run_model true true bodyExc unsubFails []).1 = Except.ok ()) := by
  cases bodyExc <;> cases unsubFails <;>
    first
    | exact absurd rfl hb
    | decide

/-- Witness for C7: cancellation with a failing unsubscribe. -/
theorem C7_teardown_reaches_closed_witness :
    ((connect_and_run_model true true Exc.keyboardInterrupt true []).2.count Ev.released = 1) ∧
    ((connect_and_run_model true true Exc.keyboardInterrupt true []).2.getLast? =
      some Ev.released) ∧
    ((connect_and_run_model true true Exc.keyboardInterrupt true []).2.count Ev.unsubCalled = 1) ∧
    ((connect_and_run_model true true Exc.keyboardInterrupt true []).1 ≠
      Except.error Exc.unsubError) ∧
    (Exc.keyboardInterrupt = Exc.keyboardInterrupt →
      (connect_and_run_model true true Exc.keyboardInterrupt true []).1 = Except.ok ()) :=
  C7_teardown_reaches_closed Exc.keyboardInterrupt true (by decide)

end KukirinG4
